import Mathlib

/-!
Verification development for the zenoh single-library session manager
(src/zenoh/zenoh_manager.cpp, src/zenoh/zenoh_config.h, src/zenoh/zenoh_utils.h,
and the unnamed variant sources).  The C sources are shallowly embedded:
preprocessor role/transport selection becomes inductive types, the
module-local static variables become an explicit ManagerState record, and
side effects (logs, z_drop calls, z_put calls, frees, delays, event-group
bits) become explicit event traces so that counting and ordering
properties can be stated and proved.
-/

namespace Zenoh

/-- Device role, from zenoh_config.h lines 9-13: ZENOH_ROLE_CLIENT (the
device that sends data) and ZENOH_ROLE_SERVER (the device that receives). -/
inductive DeviceRole where
  | client
  | server
deriving DecidableEq

/-- Transport selection, from zenoh_config.h lines 15-17:
ZENOH_TRANSPORT_TCP_CLIENT (connects to a specific IP, mode "client"),
ZENOH_TRANSPORT_TCP_PEER (listens for incoming connections, mode "peer"),
ZENOH_TRANSPORT_UDP_PEER (listens on a multicast address, mode "peer"). -/
inductive ZenohTransport where
  | tcpClient
  | tcpPeer
  | udpPeer
deriving DecidableEq

/-- Compile-time role/transport validation, from the derived-configuration
block of zenoh_config.h lines 38-56: the TCP_CLIENT branch raises a
preprocessor error unless the role is ZENOH_ROLE_CLIENT, the TCP_PEER
branch raises an error unless the role is ZENOH_ROLE_SERVER, and the
UDP_PEER branch performs no role check.  The function returns true exactly
when the pair compiles. -/
def config_validates : DeviceRole → ZenohTransport → Bool
  | DeviceRole.client, ZenohTransport.tcpClient => true
  | DeviceRole.server, ZenohTransport.tcpClient => false
  | DeviceRole.client, ZenohTransport.tcpPeer => false
  | DeviceRole.server, ZenohTransport.tcpPeer => true
  | _, ZenohTransport.udpPeer => true

/-- Session mode string derived from the transport, zenoh_config.h
lines 39, 46, 53. -/
def ZENOH_MODE : ZenohTransport → String
  | ZenohTransport.tcpClient => "client"
  | ZenohTransport.tcpPeer => "peer"
  | ZenohTransport.udpPeer => "peer"

/-- Wire protocol string derived from the transport, zenoh_config.h
lines 40, 47, 54. -/
def ZENOH_PROTOCOL : ZenohTransport → String
  | ZenohTransport.tcpClient => "tcp"
  | ZenohTransport.tcpPeer => "tcp"
  | ZenohTransport.udpPeer => "udp"

/-- Feature flag PUBLISHER_ON, zenoh_config.h line 28. -/
def PUBLISHER_ON : Bool := true

/-- Feature flag SUBSCRIBER_ON, zenoh_config.h line 29. -/
def SUBSCRIBER_ON : Bool := true

/-- Feature flag HEARTBEAT_ON, zenoh_config.h line 74. -/
def HEARTBEAT_ON : Bool := false

/-- Feature flag SCOUT_ON, zenoh_config.h line 30. -/
def SCOUT_ON : Bool := false

/-- Feature flag QUERYABLE_ON, zenoh_config.h lines 31-35: enabled exactly
for the client (query-answering) role. -/
def QUERYABLE_ON : DeviceRole → Bool
  | DeviceRole.client => true
  | DeviceRole.server => false

/-- Event-group bit ZENOH_CONNECTED_BIT, zenoh_config.h line 86. -/
def ZENOH_CONNECTED_BIT : Nat := 2

/-- Event-group bit ZENOH_DECLARED_BIT, zenoh_config.h line 87. -/
def ZENOH_DECLARED_BIT : Nat := 4

/-- Event-group bit ZENOH_STOP_BIT, zenoh_config.h line 88. -/
def ZENOH_STOP_BIT : Nat := 8

/-- Model of an owned zenoh handle (session, publisher, subscriber,
queryable).  alive records whether the handle currently holds a live
resource; dropCount counts how many times z_drop has been invoked on it,
so double-release is observable. -/
structure Handle where
  alive : Bool
  dropCount : Nat
deriving DecidableEq

/-- Model of z_drop(z_move(h)): releases the resource and records the
drop invocation. -/
def z_drop (h : Handle) : Handle :=
  { alive := false, dropCount := h.dropCount + 1 }

/-- A freshly declared, live handle. -/
def liveHandle : Handle :=
  { alive := true, dropCount := 0 }

/-- The module-local static variables of zenoh_manager.cpp lines 99-115:
the session, the task handle, the stored event group, the three resource
handles, the g_publisher_declared flag, plus the data handler passed into
the background task.  The device role is carried so the preprocessor
conditionals can be evaluated. -/
structure ManagerState where
  role : DeviceRole
  taskHandle : Bool
  appEventGroup : Option Nat
  session : Handle
  mainSubscriber : Handle
  mainPublisher : Handle
  queryable : Handle
  gPublisherDeclared : Bool
  dataHandler : Option Nat
deriving DecidableEq

/-- Observable actions of zenoh_client_init_and_start. -/
inductive StartEvent where
  | logWarnAlreadyRunning
  | taskCreate
deriving DecidableEq

/-- Embedding of zenoh_client_init_and_start, zenoh_manager.cpp
lines 310-321: if the task handle is already set it logs a warning and
returns; otherwise it stores the event group, (SCOUT_ON is 0, so no
scout) and creates the background task, handing it the data handler. -/
def zenoh_client_init_and_start (s : ManagerState) (eventGroup : Nat) (handler : Nat) :
    ManagerState × List StartEvent :=
  if s.taskHandle then
    (s, [StartEvent.logWarnAlreadyRunning])
  else
    ({ s with appEventGroup := some eventGroup,
              taskHandle := true,
              dataHandler := some handler },
     [StartEvent.taskCreate])

/-- Embedding of zenoh_client_stop, zenoh_manager.cpp lines 323-343.
HEARTBEAT_ON is 0, so no heartbeat stop.  The task is deleted and the
task handle nulled only when the handle is non-NULL; the publisher is
dropped when g_publisher_declared is set (the flag is never cleared);
the queryable (when compiled in), the subscriber, and the session are
dropped unconditionally. -/
def zenoh_client_stop (s : ManagerState) : ManagerState :=
  let s1 := if s.taskHandle then { s with taskHandle := false } else s
  let s2 := if PUBLISHER_ON && s1.gPublisherDeclared then
              { s1 with mainPublisher := z_drop s1.mainPublisher } else s1
  let s3 := if QUERYABLE_ON s2.role then
              { s2 with queryable := z_drop s2.queryable } else s2
  let s4 := if SUBSCRIBER_ON then
              { s3 with mainSubscriber := z_drop s3.mainSubscriber } else s3
  { s4 with session := z_drop s4.session }

/-- Observable actions of the two publish entry points.  putStr and putBin
record whether the session handle was still alive when z_put was invoked
on it. -/
inductive PubEvent where
  | logError
  | logWarn
  | copyFromStr (payload : String)
  | putStr (sessionAlive : Bool) (payload : String)
  | freeBuf
  | heapCapsFreeBuf
  | putBin (sessionAlive : Bool) (len : Nat)
deriving DecidableEq

/-- Embedding of payload_deleter, zenoh_manager.cpp lines 54-61: when the
registered context is non-NULL the caller buffer is released with free,
otherwise with heap_caps_free.  The result is the free event the deleter
emits for the buffer. -/
def payload_deleter (context : Option Nat) : PubEvent :=
  match context with
  | some _ => PubEvent.freeBuf
  | none => PubEvent.heapCapsFreeBuf

/-- Embedding of zenoh_publish, zenoh_manager.cpp lines 365-376: when
g_publisher_declared is set, the payload string is copied into an owned
bytes value (z_bytes_copy_from_str) and sent with z_put on the session;
otherwise an error is logged and the call returns.  The manager state is
returned unchanged in both cases (the function writes no module-local
variable). -/
def zenoh_publish (s : ManagerState) (payloadStr : String) :
    ManagerState × List PubEvent :=
  if s.gPublisherDeclared then
    (s, [PubEvent.copyFromStr payloadStr, PubEvent.putStr s.session.alive payloadStr])
  else
    (s, [PubEvent.logError])

/-- Embedding of zenoh_publish_binary, zenoh_manager.cpp lines 378-399.
Control flow from the source: if the publisher is not declared, log an
error and free the caller buffer; if z_bytes_from_buf fails (modelled by
fromBufOk = false; on failure it has not consumed the buffer), log an
error and free the caller buffer; otherwise the buffer is owned by the
payload with payload_deleter registered under context (void*)1, z_put is
invoked on the moved payload, and a warning is logged when it fails.
Library contract used by the source: z_put consumes the moved payload on
both the success and the failure path, and dropping an owned bytes value
built by z_bytes_from_buf invokes its registered deleter exactly once, so
the deleter event is emitted on both z_put outcomes. -/
def zenoh_publish_binary (s : ManagerState) (len : Nat)
    (fromBufOk : Bool) (putOk : Bool) : List PubEvent :=
  if !s.gPublisherDeclared then
    [PubEvent.logError, PubEvent.freeBuf]
  else if !fromBufOk then
    [PubEvent.logError, PubEvent.freeBuf]
  else if putOk then
    [PubEvent.putBin s.session.alive len, payload_deleter (some 1)]
  else
    [PubEvent.putBin s.session.alive len, payload_deleter (some 1), PubEvent.logWarn]

/-- Recognizes a release of the caller-supplied binary buffer, through
either allocator. -/
def isCallerBufferFree : PubEvent → Bool
  | PubEvent.freeBuf => true
  | PubEvent.heapCapsFreeBuf => true
  | _ => false

/-- Recognizes a heap_caps_free release of the caller-supplied buffer. -/
def isHeapCapsFree : PubEvent → Bool
  | PubEvent.heapCapsFreeBuf => true
  | _ => false

/-- Replies a query handler can send back to the querying peer. -/
inductive QueryReply where
  | dataReply (payload : List Nat)
  | errReply
deriving DecidableEq

/-- Embedding of client_query_handler, zenoh_manager.cpp lines 76-96.
The provider argument models the registration state and, when registered,
the outcome of invoking g_query_provider: the returned int code and the
payload it produced.  Code 0 sends the payload with z_query_reply; a
non-zero code sends an empty error payload with z_query_reply_err; an
absent registration logs an error and also sends z_query_reply_err. -/
def client_query_handler (provider : Option (Int × List Nat)) : List QueryReply :=
  match provider with
  | some result =>
      if result.1 = 0 then [QueryReply.dataReply result.2]
      else [QueryReply.errReply]
  | none => [QueryReply.errReply]

/-- Resource declarations the background task can attempt. -/
inductive DeclAttempt where
  | subscriber
  | publisher
  | queryable
deriving DecidableEq

/-- Success/failure outcome of each individual declaration attempt. -/
structure DeclOutcomes where
  subOk : Bool
  pubOk : Bool
  qryOk : Bool
deriving DecidableEq

/-- Result of the declaration phase: the attempts made in order, the
g_publisher_declared flag, and whether ZENOH_DECLARED_BIT was set. -/
structure DeclResult where
  attempts : List DeclAttempt
  publisherDeclared : Bool
  declaredBitSet : Bool
deriving DecidableEq

/-- Embedding of the declaration phase of zenoh_client_task,
zenoh_manager.cpp lines 269-304: the subscriber is declared when
SUBSCRIBER_ON (failure only logged), the publisher is declared when
PUBLISHER_ON and g_publisher_declared is set exactly when that
declaration succeeded, the queryable is declared when QUERYABLE_ON holds
for the role (failure only logged), and ZENOH_DECLARED_BIT is then set
unconditionally (line 304); no failure exits early. -/
def zenoh_declare_phase (role : DeviceRole) (o : DeclOutcomes) : DeclResult :=
  let a1 := if SUBSCRIBER_ON then [DeclAttempt.subscriber] else []
  let a2 := if PUBLISHER_ON then a1 ++ [DeclAttempt.publisher] else a1
  let pubDeclared := PUBLISHER_ON && o.pubOk
  let a3 := if QUERYABLE_ON role then a2 ++ [DeclAttempt.queryable] else a2
  { attempts := a3, publisherDeclared := pubDeclared, declaredBitSet := true }

/-- The declarations applicable to a role under the compiled feature
flags, in source order. -/
def applicable_attempts (role : DeviceRole) : List DeclAttempt :=
  (if SUBSCRIBER_ON then [DeclAttempt.subscriber] else []) ++
  (if PUBLISHER_ON then [DeclAttempt.publisher] else []) ++
  (if QUERYABLE_ON role then [DeclAttempt.queryable] else [])

/-- Observable actions of the session-open retry loop. -/
inductive EstEvent where
  | freshConfig
  | openAttempt
  | logFail
  | delayMs (ms : Nat)
  | setConnectedBit
deriving DecidableEq

/-- Embedding of the session-open loop of zenoh_client_task,
zenoh_manager.cpp lines 187-259, driven by the trace of z_open outcomes:
every iteration builds a fresh default config (z_config_default inside
the loop body) and attempts z_open; a failure is logged and followed by
vTaskDelay(15000 ms) before the next iteration; a success exits the loop,
after which ZENOH_CONNECTED_BIT is set (line 259).  The loop has no
attempt counter; it ends only on a successful open (or on external
deletion of the task by zenoh_client_stop, which is outside the loop
body). -/
def zenoh_session_establish : List Bool → List EstEvent
  | [] => []
  | ok :: rest =>
    if ok then
      [EstEvent.freshConfig, EstEvent.openAttempt, EstEvent.setConnectedBit]
    else
      [EstEvent.freshConfig, EstEvent.openAttempt, EstEvent.logFail,
       EstEvent.delayMs 15000] ++ zenoh_session_establish rest

/-- The event trace the spec prescribes when the first n open attempts
fail and attempt n + 1 succeeds: n failure blocks, each a fresh config,
an attempt, a failure log, and a 15-second delay, then one successful
attempt immediately followed by the Connected bit. -/
def expected_establish_trace : Nat → List EstEvent
  | 0 => [EstEvent.freshConfig, EstEvent.openAttempt, EstEvent.setConnectedBit]
  | n + 1 =>
    [EstEvent.freshConfig, EstEvent.openAttempt, EstEvent.logFail,
     EstEvent.delayMs 15000] ++ expected_establish_trace n

/-- Recognizes the Connected-bit event. -/
def isSetConnectedBit : EstEvent → Bool
  | EstEvent.setConnectedBit => true
  | _ => false

/-- Recognizes a fresh-configuration construction. -/
def isFreshConfig : EstEvent → Bool
  | EstEvent.freshConfig => true
  | _ => false

/-- Recognizes an open attempt. -/
def isOpenAttempt : EstEvent → Bool
  | EstEvent.openAttempt => true
  | _ => false

/-- Recognizes the fixed 15-second retry delay. -/
def isRetryDelay : EstEvent → Bool
  | EstEvent.delayMs ms => ms == 15000
  | _ => false

/-- Uppercase hexadecimal digit character for a value below 16, as
produced by the printf conversion %X: 0-9 map to the ASCII digits and
10-15 to the letters A-F. -/
def hexDigit (n : Nat) : Char :=
  if n < 10 then Char.ofNat (48 + n) else Char.ofNat (55 + n)

/-- Loop body of format_zid, src/unnamed/part_001 lines 55-59, started at
byte index i.  Each iteration requires i * 2 + 2 < len and then performs
sprintf(buffer + i * 2, two uppercase hex digits of the byte), which
writes the two digits at offsets i * 2 and i * 2 + 1 and a terminating
NUL at offset i * 2 + 2.  The result is the ordered list of (offset,
character) writes into the buffer. -/
def format_zid_go : List Nat → Nat → Nat → List (Nat × Char)
  | [], _, _ => []
  | b :: rest, i, len =>
    if i * 2 + 2 < len then
      (i * 2, hexDigit (b / 16)) :: (i * 2 + 1, hexDigit (b % 16)) ::
        (i * 2 + 2, Char.ofNat 0) :: format_zid_go rest (i + 1) len
    else []

/-- Embedding of format_zid, src/unnamed/part_001 lines 55-59 and
src/zenoh/zenoh_utils.h lines 36-41: iterates over the identifier bytes
from index 0 while the per-iteration bound holds, producing the buffer
writes. -/
def format_zid (id : List Nat) (len : Nat) : List (Nat × Char) :=
  format_zid_go id 0 len

/-- The write list of an untruncated run of the format_zid loop starting
at byte index i: every identifier byte is encoded. -/
def full_zid_writes : List Nat → Nat → List (Nat × Char)
  | [], _ => []
  | b :: rest, i =>
    (i * 2, hexDigit (b / 16)) :: (i * 2 + 1, hexDigit (b % 16)) ::
      (i * 2 + 2, Char.ofNat 0) :: full_zid_writes rest (i + 1)

/-- The sixteen uppercase hexadecimal digit characters. -/
def uppercaseHexDigits : List Char :=
  ['0', '1', '2', '3', '4', '5', '6', '7',
   '8', '9', 'A', 'B', 'C', 'D', 'E', 'F']

/-- A manager state as reached by start, a successful session open, and a
fully successful declaration phase on the client (query-answering) role:
the background task is running, all handles are live, and
g_publisher_declared is set. -/
def runningClientState : ManagerState :=
  { role := DeviceRole.client,
    taskHandle := true,
    appEventGroup := some 1,
    session := liveHandle,
    mainSubscriber := liveHandle,
    mainPublisher := liveHandle,
    queryable := liveHandle,
    gPublisherDeclared := true,
    dataHandler := some 7 }

/-- A manager state in which the publisher declaration has not (or not
yet) succeeded: g_publisher_declared is unset. -/
def undeclaredState : ManagerState :=
  { role := DeviceRole.server,
    taskHandle := true,
    appEventGroup := some 1,
    session := liveHandle,
    mainSubscriber := liveHandle,
    mainPublisher := { alive := false, dropCount := 0 },
    queryable := { alive := false, dropCount := 0 },
    gPublisherDeclared := false,
    dataHandler := some 7 }

/-- The retry loop produces exactly the expected trace when the first n
open attempts fail and the next succeeds. -/
theorem establish_eq_expected (n : Nat) :
    zenoh_session_establish (List.replicate n false ++ [true]) =
      expected_establish_trace n := by
  induction n with
  | zero => rfl
  | succ n ih =>
    simp [List.replicate_succ, zenoh_session_establish, expected_establish_trace, ih]

/-- The expected trace sets the Connected bit exactly once. -/
theorem expected_countP_connected (n : Nat) :
    (expected_establish_trace n).countP isSetConnectedBit = 1 := by
  induction n with
  | zero => rfl
  | succ n ih =>
    simp [expected_establish_trace, List.countP_cons, isSetConnectedBit, ih]

/-- The expected trace builds one fresh configuration per attempt. -/
theorem expected_countP_fresh (n : Nat) :
    (expected_establish_trace n).countP isFreshConfig = n + 1 := by
  induction n with
  | zero => rfl
  | succ n ih =>
    simp [expected_establish_trace, List.countP_cons, isFreshConfig, ih]

/-- The expected trace contains one open attempt per attempt. -/
theorem expected_countP_open (n : Nat) :
    (expected_establish_trace n).countP isOpenAttempt = n + 1 := by
  induction n with
  | zero => rfl
  | succ n ih =>
    simp [expected_establish_trace, List.countP_cons, isOpenAttempt, ih]

/-- The expected trace contains one 15-second delay per failed attempt. -/
theorem expected_countP_delay (n : Nat) :
    (expected_establish_trace n).countP isRetryDelay = n := by
  induction n with
  | zero => rfl
  | succ n ih =>
    simp [expected_establish_trace, List.countP_cons, isRetryDelay, ih]

/-- The expected trace ends with the Connected bit. -/
theorem expected_ends_with_connected (n : Nat) :
    ∃ pre, expected_establish_trace n = pre ++ [EstEvent.setConnectedBit] := by
  induction n with
  | zero => exact ⟨[EstEvent.freshConfig, EstEvent.openAttempt], rfl⟩
  | succ n ih =>
    obtain ⟨pre, hp⟩ := ih
    exact ⟨[EstEvent.freshConfig, EstEvent.openAttempt, EstEvent.logFail,
            EstEvent.delayMs 15000] ++ pre, by simp [expected_establish_trace, hp]⟩

/-- A run whose every open attempt fails never sets the Connected bit. -/
theorem establish_all_failures_no_connected (n : Nat) :
    (zenoh_session_establish (List.replicate n false)).countP isSetConnectedBit = 0 := by
  induction n with
  | zero => rfl
  | succ n ih =>
    simp [List.replicate_succ, zenoh_session_establish, List.countP_cons,
      isSetConnectedBit, ih]

/-- Every write offset produced by the format_zid loop stays below the
buffer length. -/
theorem format_zid_go_writes_in_bounds (id : List Nat) :
    ∀ i len w, w ∈ format_zid_go id i len → w.1 < len := by
  induction id with
  | nil =>
    intro i len w hw
    simp [format_zid_go] at hw
  | cons b rest ih =>
    intro i len w hw
    by_cases h : i * 2 + 2 < len
    · simp only [format_zid_go, if_pos h, List.mem_cons] at hw
      rcases hw with rfl | rfl | rfl | hw
      · omega
      · omega
      · omega
      · exact ih (i + 1) len w hw
    · simp [format_zid_go, if_neg h] at hw

/-- When the buffer is large enough for the remaining bytes, the
format_zid loop is never truncated. -/
theorem format_zid_go_full (id : List Nat) :
    ∀ i len, (i + id.length) * 2 + 1 ≤ len →
      format_zid_go id i len = full_zid_writes id i := by
  induction id with
  | nil => intro i len _; rfl
  | cons b rest ih =>
    intro i len h
    have hc : i * 2 + 2 < len := by
      simp only [List.length_cons] at h; omega
    have hrec := ih (i + 1) len (by simp only [List.length_cons] at h; omega)
    simp only [format_zid_go, full_zid_writes, if_pos hc, hrec]

/-- Claim C1 (refuting evidence): starting from the running, fully
declared client state, one zenoh_client_stop call drops the session and
publisher handles once, and a second zenoh_client_stop call drops the
session, publisher, subscriber, and queryable handles a second time,
because g_publisherDeclared is never cleared and the queryable,
subscriber, and session drops are unconditional. -/
theorem stop_twice_redrops_handles :
    (zenoh_client_stop runningClientState).session.dropCount = 1 ∧
    (zenoh_client_stop runningClientState).mainPublisher.dropCount = 1 ∧
    (zenoh_client_stop (zenoh_client_stop runningClientState)).session.dropCount = 2 ∧
    (zenoh_client_stop (zenoh_client_stop runningClientState)).mainPublisher.dropCount = 2 ∧
    (zenoh_client_stop (zenoh_client_stop runningClientState)).mainSubscriber.dropCount = 2 ∧
    (zenoh_client_stop (zenoh_client_stop runningClientState)).queryable.dropCount = 2 := by
  decide

/-- Claim C2: on every path of zenoh_publish_binary — publisher not
declared, payload construction failure, transport send failure, and
success — the caller-supplied buffer is freed exactly once, and never
through heap_caps_free (the registered deleter context is non-NULL, so
the deleter picks free). -/
theorem publish_binary_frees_exactly_once (s : ManagerState) (len : Nat)
    (fromBufOk putOk : Bool) :
    ((zenoh_publish_binary s len fromBufOk putOk).countP isCallerBufferFree) = 1 ∧
    ((zenoh_publish_binary s len fromBufOk putOk).countP isHeapCapsFree) = 0 := by
  cases hd : s.gPublisherDeclared <;> cases fromBufOk <;> cases putOk <;>
    simp [zenoh_publish_binary, payload_deleter, hd, isCallerBufferFree,
      isHeapCapsFree, List.countP_cons]

/-- Claim C3: for every role and every combination of individual
declaration outcomes, the declaration phase attempts exactly the
applicable declarations (subscriber, publisher, and queryable for the
query-answering role) in order, independent of any failures, and
ZENOH_DECLARED_BIT is set after the last attempt; g_publisherDeclared
records exactly the publisher outcome. -/
theorem declare_phase_always_sets_declared_bit (role : DeviceRole) (o : DeclOutcomes) :
    (zenoh_declare_phase role o).declaredBitSet = true ∧
    (zenoh_declare_phase role o).attempts = applicable_attempts role ∧
    (zenoh_declare_phase role o).publisherDeclared = o.pubOk := by
  refine ⟨rfl, ?_, ?_⟩
  · cases role <;>
      simp [zenoh_declare_phase, applicable_attempts, SUBSCRIBER_ON,
        PUBLISHER_ON, QUERYABLE_ON]
  · simp [zenoh_declare_phase, PUBLISHER_ON]

/-- Claim C4: a zenoh_publish call while the publisher is not declared
logs an error and returns without sending, leaving the manager state
unchanged; a call after the publisher declaration succeeded copies the
payload and sends it with z_put. -/
theorem publish_requires_declared (s : ManagerState) (p : String) :
    (s.gPublisherDeclared = false →
      zenoh_publish s p = (s, [PubEvent.logError])) ∧
    (s.gPublisherDeclared = true →
      zenoh_publish s p =
        (s, [PubEvent.copyFromStr p, PubEvent.putStr s.session.alive p])) := by
  constructor <;> intro h <;> simp [zenoh_publish, h]

/-- Witness for publish_requires_declared: evaluated at a state without
and a state with the publisher declared. -/
theorem publish_requires_declared_witness :
    undeclaredState.gPublisherDeclared = false ∧
    zenoh_publish undeclaredState "hello" = (undeclaredState, [PubEvent.logError]) ∧
    runningClientState.gPublisherDeclared = true ∧
    zenoh_publish runningClientState "hello" =
      (runningClientState,
       [PubEvent.copyFromStr "hello", PubEvent.putStr true "hello"]) :=
  ⟨rfl, (publish_requires_declared undeclaredState "hello").1 rfl, rfl,
   (publish_requires_declared runningClientState "hello").2 rfl⟩

/-- Claim C5: the query handler always sends exactly one reply; it is a
data reply carrying the provider payload exactly when a provider is
registered and returned 0, and an error reply when the provider returned
non-zero or no provider is registered. -/
theorem query_handler_single_distinguishable_reply
    (provider : Option (Int × List Nat)) :
    (client_query_handler provider).length = 1 ∧
    (∀ pl, provider = some (0, pl) →
      client_query_handler provider = [QueryReply.dataReply pl]) ∧
    (∀ c pl, provider = some (c, pl) → c ≠ 0 →
      client_query_handler provider = [QueryReply.errReply]) ∧
    (provider = none → client_query_handler provider = [QueryReply.errReply]) := by
  refine ⟨?_, ?_, ?_, ?_⟩
  · rcases provider with _ | ⟨c, pl⟩
    · rfl
    · by_cases h : c = 0 <;> simp [client_query_handler, h]
  · intro pl hp
    subst hp
    simp [client_query_handler]
  · intro c pl hp hc
    subst hp
    simp [client_query_handler, hc]
  · intro hp
    subst hp
    rfl

/-- Witness for query_handler_single_distinguishable_reply: a successful
provider, a failing provider, and no provider, each evaluated. -/
theorem query_handler_witness :
    client_query_handler (some (0, [1, 2])) = [QueryReply.dataReply [1, 2]] ∧
    client_query_handler (some (1, [3])) = [QueryReply.errReply] ∧
    client_query_handler none = [QueryReply.errReply] :=
  ⟨(query_handler_single_distinguishable_reply (some (0, [1, 2]))).2.1 [1, 2] rfl,
   (query_handler_single_distinguishable_reply (some (1, [3]))).2.2.1 1 [3] rfl
     (by decide),
   (query_handler_single_distinguishable_reply none).2.2.2 rfl⟩

/-- Claim C6: when the first n open attempts fail and attempt n + 1
succeeds, the session loop builds a fresh configuration on each of the
n + 1 attempts, waits the fixed 15-second delay after each of the n
failures, sets the Connected bit exactly once and as the final action
(immediately after the successful open), and a run of only failures never
sets it; n is arbitrary, so there is no maximum attempt count. -/
theorem session_establish_retries_until_success (n : Nat) :
    zenoh_session_establish (List.replicate n false ++ [true]) =
      expected_establish_trace n ∧
    (zenoh_session_establish (List.replicate n false ++ [true])).countP
      isSetConnectedBit = 1 ∧
    (zenoh_session_establish (List.replicate n false ++ [true])).countP
      isFreshConfig = n + 1 ∧
    (zenoh_session_establish (List.replicate n false ++ [true])).countP
      isOpenAttempt = n + 1 ∧
    (zenoh_session_establish (List.replicate n false ++ [true])).countP
      isRetryDelay = n ∧
    (∃ pre, zenoh_session_establish (List.replicate n false ++ [true]) =
      pre ++ [EstEvent.setConnectedBit]) ∧
    (zenoh_session_establish (List.replicate n false)).countP
      isSetConnectedBit = 0 := by
  have he := establish_eq_expected n
  refine ⟨he, ?_, ?_, ?_, ?_, ?_, establish_all_failures_no_connected n⟩
  · rw [he]; exact expected_countP_connected n
  · rw [he]; exact expected_countP_fresh n
  · rw [he]; exact expected_countP_open n
  · rw [he]; exact expected_countP_delay n
  · rw [he]; exact expected_ends_with_connected n

/-- Claim C7: a role/transport pair passes the derived-configuration
validation exactly when it is compatible — any role with the UDP peer
transport, the client role with the TCP client transport, or the server
role with the TCP peer transport; in particular the server (responder)
role with the initiator-only TCP client transport and the client role
with the TCP peer transport are rejected at configuration time. -/
theorem config_validation_characterization :
    (∀ role t, config_validates role t = true ↔
      (t = ZenohTransport.udpPeer ∨
       (role = DeviceRole.client ∧ t = ZenohTransport.tcpClient) ∨
       (role = DeviceRole.server ∧ t = ZenohTransport.tcpPeer))) ∧
    config_validates DeviceRole.server ZenohTransport.tcpClient = false ∧
    config_validates DeviceRole.client ZenohTransport.tcpPeer = false := by
  refine ⟨?_, rfl, rfl⟩
  intro role t
  cases role <;> cases t <;> simp [config_validates]

/-- Witness for config_validation_characterization: the client/TCP-client
pair validates. -/
theorem config_validation_characterization_witness :
    config_validates DeviceRole.client ZenohTransport.tcpClient = true :=
  (config_validation_characterization.1 DeviceRole.client
    ZenohTransport.tcpClient).mpr (Or.inr (Or.inl ⟨rfl, rfl⟩))

/-- Claim C8: when the task handle is already set, a further
zenoh_client_init_and_start call only logs a warning: it creates no task
and leaves the whole manager state, including the stored event group and
data handler, unchanged. -/
theorem init_and_start_idempotent (s : ManagerState) (eg h : Nat) :
    s.taskHandle = true →
    zenoh_client_init_and_start s eg h =
      (s, [StartEvent.logWarnAlreadyRunning]) := by
  intro ht
  simp [zenoh_client_init_and_start, ht]

/-- Witness for init_and_start_idempotent: evaluated on the running
state. -/
theorem init_and_start_idempotent_witness :
    runningClientState.taskHandle = true ∧
    zenoh_client_init_and_start runningClientState 5 9 =
      (runningClientState, [StartEvent.logWarnAlreadyRunning]) :=
  ⟨rfl, init_and_start_idempotent runningClientState 5 9 rfl⟩

/-- Claim C9: zenoh_client_stop never changes g_publisherDeclared while
it always kills the session, so after a stop from a state with the
publisher declared, a zenoh_publish call still passes the declared check
and invokes z_put on the dropped session instead of taking the
not-declared no-op path. -/
theorem stop_preserves_publisher_declared (s : ManagerState) (p : String) :
    (zenoh_client_stop s).gPublisherDeclared = s.gPublisherDeclared ∧
    (zenoh_client_stop s).session.alive = false ∧
    (s.gPublisherDeclared = true →
      (zenoh_publish (zenoh_client_stop s) p).2 =
        [PubEvent.copyFromStr p, PubEvent.putStr false p]) := by
  rcases s with ⟨role, th, aeg, sess, sub, pub, qry, decl, dh⟩
  cases role <;> cases th <;> cases decl <;>
    simp [zenoh_client_stop, zenoh_publish, z_drop,
      PUBLISHER_ON, SUBSCRIBER_ON, QUERYABLE_ON]

/-- Witness for stop_preserves_publisher_declared: evaluated on the
running declared state. -/
theorem stop_preserves_publisher_declared_witness :
    runningClientState.gPublisherDeclared = true ∧
    (zenoh_publish (zenoh_client_stop runningClientState) "x").2 =
      [PubEvent.copyFromStr "x", PubEvent.putStr false "x"] :=
  ⟨rfl, (stop_preserves_publisher_declared runningClientState "x").2.2 rfl⟩

/-- Claim C10: format_zid writes only at offsets below the buffer length
for every identifier and every length (a too-small buffer truncates
instead of overflowing), and a buffer with length at least twice the
identifier size plus one receives the complete identifier, every byte
rendered as two fixed-width uppercase hexadecimal digits. -/
theorem format_zid_bounded_and_complete (id : List Nat) (len : Nat) :
    (∀ w ∈ format_zid id len, w.1 < len) ∧
    (2 * id.length + 1 ≤ len → format_zid id len = full_zid_writes id 0) ∧
    (∀ n < 16, hexDigit n ∈ uppercaseHexDigits) := by
  refine ⟨?_, ?_, ?_⟩
  · intro w hw
    exact format_zid_go_writes_in_bounds id 0 len w hw
  · intro h
    exact format_zid_go_full id 0 len (by omega)
  · intro n hn
    interval_cases n <;> decide

/-- Witness for format_zid_bounded_and_complete: the two-byte identifier
0xAB 0xCD with the exactly-sufficient buffer length 5. -/
theorem format_zid_bounded_and_complete_witness :
    2 * ([171, 205] : List Nat).length + 1 ≤ 5 ∧
    format_zid [171, 205] 5 = full_zid_writes [171, 205] 0 ∧
    (0, hexDigit 10) ∈ format_zid [171, 205] 5 ∧
    (0 : Nat) < 5 ∧
    hexDigit 15 ∈ uppercaseHexDigits :=
  ⟨by decide,
   (format_zid_bounded_and_complete [171, 205] 5).2.1 (by decide),
   by decide,
   (format_zid_bounded_and_complete [171, 205] 5).1 (0, hexDigit 10) (by decide),
   (format_zid_bounded_and_complete [171, 205] 5).2.2 15 (by decide)⟩

end Zenoh
